import Mathlib

/-!
# StatEnv worker — shallow embedding and verification

A shallow embedding of the StatEnv Cloudflare Worker (`src/index.js`):
an API proxy with route resolution, origin validation, fixed-window rate
limiting, response caching, secret injection and upstream forwarding.
All definitions are translated directly from the JavaScript source.
-/

namespace StatEnv

/-! ## Association-list primitives

JavaScript `Map`, `URLSearchParams`, `Headers` and plain objects are
modelled as ordered association lists.  `lookupField` is property read /
`searchParams.get` (first match); `setParam` is `URLSearchParams.set` /
`headers.set` / property assignment: replace the first occurrence in
place (dropping later duplicates, as `URLSearchParams.set` does) or
append at the end. -/

def lookupField (l : List (String × α)) (k : String) : Option α :=
  match l with
  | [] => none
  | (k', v) :: rest => if k' = k then some v else lookupField rest k

def hasField (l : List (String × α)) (k : String) : Bool :=
  l.any (fun p => p.1 = k)

def removeParam (l : List (String × α)) (k : String) : List (String × α) :=
  l.filter (fun p => p.1 ≠ k)

def setParam (l : List (String × α)) (k : String) (v : α) : List (String × α) :=
  match l with
  | [] => [(k, v)]
  | (k', v') :: rest =>
      if k' = k then (k, v) :: removeParam rest k
      else (k', v') :: setParam rest k v

/-- JS `s.startsWith(p)`. -/
def jsStartsWith (s p : String) : Bool :=
  p.data.isPrefixOf s.data

/-- The origin validation of src/index.js lines 94–100:
`appConfig.origins.some(allowed => origin.startsWith(allowed) ||
referer.startsWith(allowed))`, where `origin` and `referer` are the
header values defaulted to the empty string. -/
def isAllowedOrigin (origins : List String) (origin referer : String) : Bool :=
  origins.any fun allowed =>
    jsStartsWith origin allowed || jsStartsWith referer allowed

/-! ## Rate limiter (`checkRateLimit`, src/index.js lines 309–366)

`RATE_LIMIT` constants; the store is a `Map` from identifier to
`{count, resetAt}`.  `Math.random() < 0.01` (the probabilistic cleanup
trigger) is modelled by the explicit boolean argument `cleanup`. -/

def maxRequests : Nat := 100
def windowMs : Nat := 60000
def perIP : Bool := true

structure RLEntry where
  count : Nat
  resetAt : Nat
deriving DecidableEq, Repr

abbrev RateLimitStore := List (String × RLEntry)

structure RateLimitResult where
  allowed : Bool
  remaining : Nat
  resetAt : Nat
deriving DecidableEq, Repr

/-- `checkRateLimit(identifier)` from src/index.js: opportunistic cleanup of
expired entries, then create / reset / deny / increment. `now` is
`Date.now()`. -/
def checkRateLimit (identifier : String) (now : Nat) (cleanup : Bool)
    (store : RateLimitStore) : RateLimitResult × RateLimitStore :=
  let store := if cleanup
    then store.filter (fun p => !(decide (now > p.2.resetAt)))
    else store
  if hasField store identifier = false then
    (⟨true, maxRequests - 1, now + windowMs⟩,
     setParam store identifier ⟨1, now + windowMs⟩)
  else
    match lookupField store identifier with
    | none => (⟨true, maxRequests - 1, now + windowMs⟩,
               setParam store identifier ⟨1, now + windowMs⟩)
    | some data =>
      if now > data.resetAt then
        (⟨true, maxRequests - 1, now + windowMs⟩,
         setParam store identifier ⟨1, now + windowMs⟩)
      else if data.count ≥ maxRequests then
        (⟨false, 0, data.resetAt⟩, store)
      else
        (⟨true, maxRequests - (data.count + 1), data.resetAt⟩,
         setParam store identifier ⟨data.count + 1, data.resetAt⟩)

/-- Iterate `checkRateLimit` for one identifier over a list of
`(now, cleanup)` call descriptions, collecting the per-call results and
the final store. -/
def runChecks (identifier : String) (calls : List (Nat × Bool))
    (store : RateLimitStore) : List RateLimitResult × RateLimitStore :=
  match calls with
  | [] => ([], store)
  | (t, b) :: rest =>
      let (r, s') := checkRateLimit identifier t b store
      let (rs, s'') := runChecks identifier rest s'
      (r :: rs, s'')

/-! ## Upstream forwarder request builders (src/index.js lines 158–203)

GET: `new URL(apiConfig.url)` gives a base query; `searchParams.set('key',
secretValue)` injects the secret; then each whitelisted param present
with a truthy (non-empty) value in the client query is copied over.
POST: an empty object accumulates the whitelisted fields present in the
client body, then `allowedBody.key = secretValue` overwrites `key`. -/

/-- The GET `for (const param of apiConfig.params)` loop: copy each
whitelisted param whose client value is truthy (non-empty). -/
def copyParams (q : List (String × String)) (params : List String)
    (clientQuery : List (String × String)) : List (String × String) :=
  match params with
  | [] => q
  | p :: rest =>
      let q' := match lookupField clientQuery p with
        | some v => if v ≠ "" then setParam q p v else q
        | none => q
      copyParams q' rest clientQuery

def buildGetQuery (baseQuery : List (String × String)) (params : List String)
    (clientQuery : List (String × String)) (secret : String) :
    List (String × String) :=
  copyParams (setParam baseQuery "key" secret) params clientQuery

/-- The POST `for (const field of apiConfig.bodyFields)` loop: copy each
whitelisted field present in the client body. -/
def copyFields (acc : List (String × String)) (fields : List String)
    (clientBody : List (String × String)) : List (String × String) :=
  match fields with
  | [] => acc
  | f :: rest =>
      let acc' := match lookupField clientBody f with
        | some v => setParam acc f v
        | none => acc
      copyFields acc' rest clientBody

def buildPostBody (bodyFields : List String)
    (clientBody : List (String × String)) (secret : String) :
    List (String × String) :=
  setParam (copyFields [] bodyFields clientBody) "key" secret

/-- Proof auxiliary: blank out the values bound to `"key"`, keeping
positions.  Two objects with the same mask become identical once `key`
is overwritten with the secret. -/
def maskKeyValues : List (String × String) → List (String × String)
  | [] => []
  | (a, b) :: tl => (if a = "key" then ("key", "") else (a, b)) :: maskKeyValues tl

/-- Outcome of `await request.json().catch(() => ({}))`: a parsed JSON
object, or a parse failure (which the code turns into `{}`). -/
inductive ClientJson where
  | ok (obj : List (String × String))
  | malformed
deriving DecidableEq

/-- The object the POST branch works with: the parsed body, or `{}` when
the body was unparseable. -/
def clientObj : ClientJson → List (String × String)
  | .ok obj => obj
  | .malformed => []

/-! ## HTTP model -/

/-- JS `pathname.split('/')`: split at every `'/'`, keeping empty
pieces. -/
def jsSplitSlash (cs : List Char) (acc : List Char) : List String :=
  match cs with
  | [] => [String.mk acc.reverse]
  | c :: rest =>
      if c = '/' then String.mk acc.reverse :: jsSplitSlash rest []
      else jsSplitSlash rest (c :: acc)

/-- `url.pathname.split('/').filter(Boolean)` (src/index.js line 64). -/
def pathPartsOf (pathname : String) : List String :=
  (jsSplitSlash pathname.data []).filter (fun s => s ≠ "")

/-- Values appearing in the worker's JSON error payloads. -/
inductive JVal where
  | str (s : String)
  | num (n : Nat)
  | arr (xs : List String)
deriving DecidableEq

inductive ResBody where
  | empty
  | text (s : String)
  | json (fields : List (String × JVal))
deriving DecidableEq

structure WorkerResponse where
  status : Nat
  headers : List (String × String)
  body : ResBody
deriving DecidableEq

structure WorkerRequest where
  method : String
  url : String
  pathname : String
  query : List (String × String)
  originHeader : Option String
  refererHeader : Option String
  ipHeader : Option String
  bodyJson : ClientJson
deriving DecidableEq

/-- `jsonResponse(data, status)` (src/index.js lines 295–303): JSON body
with `Content-Type` and a wildcard `Access-Control-Allow-Origin`. -/
def jsonResponse (data : List (String × JVal)) (status : Nat) : WorkerResponse :=
  { status := status,
    headers := [("Content-Type", "application/json"),
                ("Access-Control-Allow-Origin", "*")],
    body := .json data }

/-- `handleCORS(request)` (src/index.js lines 268–280). -/
def handleCORS (req : WorkerRequest) : WorkerResponse :=
  let origin := req.originHeader.getD ""
  let origin := if origin = "" then "*" else origin
  { status := 204,
    headers := [("Access-Control-Allow-Origin", origin),
                ("Access-Control-Allow-Methods", "GET, POST, OPTIONS"),
                ("Access-Control-Allow-Headers", "Content-Type"),
                ("Access-Control-Max-Age", "86400")],
    body := .empty }

/-- `addCORSHeaders(response, origin)` (src/index.js lines 285–290). -/
def addCORSHeaders (r : WorkerResponse) (origin : String) : WorkerResponse :=
  let h1 := setParam r.headers "Access-Control-Allow-Origin"
    (if origin = "" then "*" else origin)
  let h2 := setParam h1 "Access-Control-Allow-Methods" "GET, POST, OPTIONS"
  { r with headers := h2 }

/-- `Response.ok`: status in the 200–299 success range. -/
def responseOk (status : Nat) : Bool :=
  decide (200 ≤ status) && decide (status ≤ 299)

/-! ## Configuration (src/index.js lines 23–53) -/

structure ApiConfig where
  urlBase : String
  urlQuery : List (String × String)
  secret : String
  method : String
  params : Option (List String)
  bodyFields : Option (List String)
  cache : Nat
deriving DecidableEq

structure AppConfig where
  origins : List String
  apis : List (String × ApiConfig)
deriving DecidableEq

/-- The `APP_CONFIG` constant of src/index.js.  `cache := 0` models an
absent (falsy) `cache` property. -/
def APP_CONFIG : List (String × AppConfig) :=
  [("myblog",
    { origins := ["http://localhost:5500"],
      apis := [("weather",
                 { urlBase := "https://api.weatherapi.com/v1/current.json",
                   urlQuery := [], secret := "MYBLOG_WEATHER_KEY",
                   method := "GET", params := some ["q"],
                   bodyFields := none, cache := 300 }),
               ("analytics",
                 { urlBase := "https://api.example.com/track",
                   urlQuery := [], secret := "MYBLOG_ANALYTICS_KEY",
                   method := "POST", params := none,
                   bodyFields := some ["event", "data"], cache := 0 })] }),
   ("myshop",
    { origins := ["https://shop.com", "http://localhost:8080"],
      apis := [("stripe",
                 { urlBase := "https://api.stripe.com/v1/payment_intents",
                   urlQuery := [], secret := "MYSHOP_STRIPE_KEY",
                   method := "POST", params := none,
                   bodyFields := some ["amount", "currency"], cache := 0 })] })]

/-! ## The request pipeline (`fetch`, src/index.js lines 56–263) -/

structure OutboundRequest where
  urlBase : String
  query : List (String × String)
  method : String
  body : Option (List (String × String))
deriving DecidableEq

/-- The fate of the single outbound `fetch` call: a response, an
`AbortError` from the 10-second timeout, or another transport failure. -/
inductive UpstreamOutcome where
  | success (status : Nat) (contentType : Option String) (body : String)
  | timeout
  | failure
deriving DecidableEq

structure FetchResult where
  response : WorkerResponse
  rlStore : RateLimitStore
  cacheWrite : Option (String × WorkerResponse)
  outbound : Option OutboundRequest
deriving DecidableEq

/-- The worker's `fetch` handler (src/index.js lines 56–263), translated
clause by clause.  Inputs beyond the request: the app configuration
(`APP_CONFIG` in the source), the secret store `env`, the cache keyed by
`request.url`, the rate-limit store with the current time and the
cleanup coin flip, and the outcome of the one outbound call.  Outputs:
the HTTP response, the updated rate-limit store, the `cache.put` action
(if any) and the outbound request that was issued (if any). -/
def workerFetch (cfg : List (String × AppConfig)) (req : WorkerRequest)
    (env : List (String × String)) (cache : List (String × WorkerResponse))
    (rl : RateLimitStore) (now : Nat) (cleanup : Bool)
    (upstream : UpstreamOutcome) : FetchResult :=
  if req.method = "OPTIONS" then
    ⟨handleCORS req, rl, none, none⟩
  else
    match pathPartsOf req.pathname with
    | appName :: apiName :: _ =>
      match lookupField cfg appName with
      | none =>
          ⟨jsonResponse [("error", .str "Unknown app"),
                         ("availableApps", .arr (cfg.map Prod.fst))] 404,
           rl, none, none⟩
      | some appConfig =>
        match lookupField appConfig.apis apiName with
        | none =>
            ⟨jsonResponse [("error", .str "Unknown API endpoint"),
                           ("availableApis", .arr (appConfig.apis.map Prod.fst))] 404,
             rl, none, none⟩
        | some apiConfig =>
          let origin := req.originHeader.getD ""
          let referer := req.refererHeader.getD ""
          let isAllowed := isAllowedOrigin appConfig.origins origin referer
          if !isAllowed then
            ⟨jsonResponse [("error", .str "Forbidden")] 403, rl, none, none⟩
          else
            let clientIP := req.ipHeader.getD "unknown"
            let rateLimitKey := if perIP then clientIP else appName
            let checked := checkRateLimit rateLimitKey now cleanup rl
            let rateLimit := checked.1
            let rl' := checked.2
            if !rateLimit.allowed then
              let resetIn := (rateLimit.resetAt - now + 999) / 1000
              ⟨{ status := 429,
                 headers := [("Content-Type", "application/json"),
                             ("Retry-After", toString resetIn),
                             ("X-RateLimit-Limit", toString maxRequests),
                             ("X-RateLimit-Remaining", "0"),
                             ("X-RateLimit-Reset", toString rateLimit.resetAt),
                             ("Access-Control-Allow-Origin",
                               if origin = "" then "*" else origin)],
                 body := .json [("error", .str "Too Many Requests"),
                                ("message", .str ("Rate limit exceeded. Try again in "
                                  ++ toString resetIn ++ " seconds.")),
                                ("retryAfter", .num resetIn)] },
               rl', none, none⟩
            else
              let hit : Option WorkerResponse :=
                if apiConfig.cache ≠ 0 then lookupField cache req.url else none
              match hit with
              | some cachedResponse =>
                let h1 := setParam cachedResponse.headers "X-Cache" "HIT"
                let h2 := setParam h1 "X-RateLimit-Limit" (toString maxRequests)
                let h3 := setParam h2 "X-RateLimit-Remaining" (toString rateLimit.remaining)
                let h4 := setParam h3 "X-RateLimit-Reset" (toString rateLimit.resetAt)
                let response := { cachedResponse with headers := h4 }
                ⟨addCORSHeaders response origin, rl', none, none⟩
              | none =>
                let secretValue := (lookupField env apiConfig.secret).getD ""
                if secretValue = "" then
                  ⟨jsonResponse [("error", .str "Configuration error")] 500,
                   rl', none, none⟩
                else
                  let proxyQuery :=
                    if apiConfig.method = "GET" ∧ apiConfig.params.isSome then
                      buildGetQuery apiConfig.urlQuery (apiConfig.params.getD [])
                        req.query secretValue
                    else apiConfig.urlQuery
                  let outBody : Option (List (String × String)) :=
                    if apiConfig.method = "POST" ∧ apiConfig.bodyFields.isSome then
                      some (buildPostBody (apiConfig.bodyFields.getD [])
                        (clientObj req.bodyJson) secretValue)
                    else none
                  let ob : OutboundRequest :=
                    { urlBase := apiConfig.urlBase, query := proxyQuery,
                      method := apiConfig.method, body := outBody }
                  match upstream with
                  | .timeout =>
                      ⟨jsonResponse [("error", .str "Gateway Timeout"),
                                     ("message", .str "External API took too long to respond")] 504,
                       rl', none, some ob⟩
                  | .failure =>
                      ⟨jsonResponse [("error", .str "Bad Gateway"),
                                     ("message", .str "Failed to reach external API")] 502,
                       rl', none, some ob⟩
                  | .success status ct body =>
                    let response : WorkerResponse :=
                      { status := status,
                        headers := [("Content-Type", ct.getD "application/json"),
                                    ("Cache-Control",
                                      if apiConfig.cache ≠ 0 then
                                        "public, max-age=" ++ toString apiConfig.cache
                                      else "no-cache"),
                                    ("X-StatEnv-App", appName),
                                    ("X-StatEnv-API", apiName),
                                    ("X-RateLimit-Limit", toString maxRequests),
                                    ("X-RateLimit-Remaining", toString rateLimit.remaining),
                                    ("X-RateLimit-Reset", toString rateLimit.resetAt),
                                    ("X-Cache", "MISS")],
                        body := .text body }
                    let write :=
                      if apiConfig.cache ≠ 0 ∧ responseOk status then
                        some (req.url, response)
                      else none
                    ⟨addCORSHeaders response origin, rl', write, some ob⟩
    | _ =>
        ⟨jsonResponse [("error", .str "Invalid route. Use /\x7bappName\x7d/\x7bapiName\x7d"),
                       ("example", .str "/myblog/weather?q=London")] 404,
         rl, none, none⟩

/-! ## Association-list lemmas -/

theorem lookupField_setParam_self (l : List (String × α)) (k : String) (v : α) :
    lookupField (setParam l k v) k = some v := by
  induction l with
  | nil => simp [setParam, lookupField]
  | cons hd tl ih =>
      obtain ⟨k', v'⟩ := hd
      by_cases h : k' = k
      · simp [setParam, h, lookupField]
      · simp [setParam, h, lookupField, ih]

theorem removeParam_cons (a : String) (b : α) (tl : List (String × α)) (k : String) :
    removeParam ((a, b) :: tl) k =
      if a = k then removeParam tl k else (a, b) :: removeParam tl k := by
  by_cases h : a = k <;> simp [removeParam, List.filter_cons, h]

theorem lookupField_removeParam_ne (l : List (String × α)) (k k' : String)
    (h : k' ≠ k) : lookupField (removeParam l k) k' = lookupField l k' := by
  induction l with
  | nil => simp [removeParam, lookupField]
  | cons hd tl ih =>
      obtain ⟨a, b⟩ := hd
      rw [removeParam_cons]
      by_cases hak : a = k
      · subst hak
        have : a ≠ k' := fun hh => h (hh.symm)
        simp [lookupField, this, ih]
      · simp [lookupField, ih, hak]

theorem lookupField_setParam_ne (l : List (String × α)) (k k' : String) (v : α)
    (h : k' ≠ k) : lookupField (setParam l k v) k' = lookupField l k' := by
  induction l with
  | nil => simp [setParam, lookupField, Ne.symm h]
  | cons hd tl ih =>
      obtain ⟨a, b⟩ := hd
      by_cases hak : a = k
      · subst hak
        simp [setParam, lookupField, Ne.symm h, h]
        exact lookupField_removeParam_ne tl a k' h
      · by_cases hak' : a = k'
        · subst hak'
          simp [setParam, lookupField, hak]
        · simp [setParam, lookupField, hak, hak', ih]

theorem mem_setParam (l : List (String × α)) (k : String) (v : α) (p : String × α)
    (h : p ∈ setParam l k v) : p = (k, v) ∨ p ∈ l := by
  induction l with
  | nil => simp [setParam] at h; simp [h]
  | cons hd tl ih =>
      obtain ⟨a, b⟩ := hd
      by_cases hak : a = k
      · subst hak
        simp [setParam] at h
        rcases h with h | h
        · exact Or.inl h
        · exact Or.inr (List.mem_cons_of_mem _ (List.mem_of_mem_filter h))
      · simp [setParam, hak] at h
        rcases h with h | h
        · exact Or.inr (by simp [h])
        · rcases ih h with h' | h'
          · exact Or.inl h'
          · exact Or.inr (List.mem_cons_of_mem _ h')

theorem hasField_eq_isSome (l : List (String × α)) (k : String) :
    hasField l k = (lookupField l k).isSome := by
  induction l with
  | nil => simp [hasField, lookupField]
  | cons hd tl ih =>
      obtain ⟨a, b⟩ := hd
      by_cases hak : a = k
      · simp [hasField, lookupField, hak]
      · simp [hasField, lookupField, hak] at *
        exact ih

/-- Filtering never moves a surviving first binding: if the first binding
for `k` satisfies the filter predicate, it is still the first binding for
`k` afterwards. -/
theorem lookupField_filter_keep (l : List (String × α)) (q : String × α → Bool)
    (k : String) (v : α) (hl : lookupField l k = some v) (hq : q (k, v) = true) :
    lookupField (l.filter q) k = some v := by
  induction l with
  | nil => simp [lookupField] at hl
  | cons hd tl ih =>
      obtain ⟨a, b⟩ := hd
      by_cases hak : a = k
      · subst hak
        simp [lookupField] at hl
        subst hl
        simp [List.filter, hq, lookupField]
      · simp [lookupField, hak] at hl
        rw [List.filter_cons]
        by_cases hqa : q (a, b) = true
        · simp [hqa, lookupField, hak]
          exact ih hl
        · simp [hqa]
          exact ih hl

theorem lookupField_eq_none_of_not_mem (l : List (String × α)) (k : String)
    (h : k ∉ l.map Prod.fst) : lookupField l k = none := by
  induction l with
  | nil => simp [lookupField]
  | cons hd tl ih =>
      obtain ⟨a, b⟩ := hd
      simp only [List.map_cons, List.mem_cons] at h
      push_neg at h
      have hak : a ≠ k := fun hh => h.1 hh.symm
      simp [lookupField, hak, ih h.2]

/-- With nodup keys, a binding found after filtering was already the
binding before filtering. -/
theorem lookupField_filter_some (l : List (String × α)) (q : String × α → Bool)
    (k : String) (v : α) (hnd : (l.map Prod.fst).Nodup)
    (h : lookupField (l.filter q) k = some v) : lookupField l k = some v := by
  induction l with
  | nil => simp [lookupField, List.filter] at h
  | cons hd tl ih =>
      obtain ⟨a, b⟩ := hd
      simp only [List.map_cons, List.nodup_cons] at hnd
      rw [List.filter_cons] at h
      by_cases hqa : q (a, b) = true
      · simp [hqa, lookupField] at h ⊢
        by_cases hak : a = k
        · simpa [hak] using h
        · simp [hak] at h ⊢
          exact ih hnd.2 h
      · simp [hqa] at h
        by_cases hak : a = k
        · subst hak
          have : lookupField (tl.filter q) a = none := by
            apply lookupField_eq_none_of_not_mem
            intro hmem
            apply hnd.1
            rcases List.mem_map.1 hmem with ⟨p, hp, hpa⟩
            exact List.mem_map.2 ⟨p, List.mem_of_mem_filter hp, hpa⟩
          rw [this] at h
          exact absurd h (by simp)
        · simp [lookupField, hak]
          exact ih hnd.2 h

/-! ## C3: origin validation -/

theorem jsStartsWith_empty_left (a : String) (h : a ≠ "") :
    jsStartsWith "" a = false := by
  unfold jsStartsWith
  cases ha : a.data with
  | nil =>
      refine absurd ?_ h
      cases a with
      | mk d => cases (show d = [] from ha); rfl
  | cons c cs => simp [List.isPrefixOf]

/-- C3: the origin check allows a request iff at least one of the two
header values (defaulted to the empty string) has some whitelisted
origin string as a prefix; with both headers absent the request is
denied whenever every whitelisted origin is non-empty. -/
theorem c3_origin_validation (origins : List String)
    (originHeader refererHeader : Option String) :
    (isAllowedOrigin origins (originHeader.getD "") (refererHeader.getD "") = true ↔
      ∃ a ∈ origins, jsStartsWith (originHeader.getD "") a = true ∨
        jsStartsWith (refererHeader.getD "") a = true)
    ∧ ((∀ a ∈ origins, a ≠ "") →
        isAllowedOrigin origins ((none : Option String).getD "")
          ((none : Option String).getD "") = false) := by
  constructor
  · simp [isAllowedOrigin, List.any_eq_true, Bool.or_eq_true]
  · intro hne
    simp only [Option.getD_none]
    rw [Bool.eq_false_iff]
    intro hcontra
    simp only [isAllowedOrigin, List.any_eq_true, Bool.or_eq_true] at hcontra
    rcases hcontra with ⟨a, ha, hpre | hpre⟩ <;>
      rw [jsStartsWith_empty_left a (hne a ha)] at hpre <;> exact Bool.false_ne_true hpre

theorem c3_witness :
    (isAllowedOrigin ["http://localhost:5500"]
        ((some "http://localhost:5500/page" : Option String).getD "")
        ((none : Option String).getD "") = true ↔
      ∃ a ∈ ["http://localhost:5500"],
        jsStartsWith ((some "http://localhost:5500/page" : Option String).getD "") a = true ∨
        jsStartsWith ((none : Option String).getD "") a = true)
    ∧ isAllowedOrigin ["http://localhost:5500"] ((none : Option String).getD "")
        ((none : Option String).getD "") = false :=
  ⟨(c3_origin_validation ["http://localhost:5500"] (some "http://localhost:5500/page") none).1,
   (c3_origin_validation ["http://localhost:5500"] none none).2 (by decide)⟩

/-! ## C2: upstream request whitelisting -/

theorem lookupField_copyParams (params : List String)
    (clientQuery q : List (String × String)) (k : String) :
    lookupField (copyParams q params clientQuery) k =
      if k ∈ params ∧ (lookupField clientQuery k).getD "" ≠ "" then
        lookupField clientQuery k
      else lookupField q k := by
  induction params generalizing q with
  | nil => simp [copyParams]
  | cons p rest ih =>
      rw [copyParams, ih]
      by_cases hkp : k = p
      · subst hkp
        cases hl : lookupField clientQuery k with
        | none => split_ifs <;> simp_all
        | some v =>
            by_cases hv : v = ""
            · subst hv; split_ifs <;> simp_all
            · have hs := lookupField_setParam_self q k v
              split_ifs <;> simp_all
      · have hne : ∀ v, lookupField (setParam q p v) k = lookupField q k :=
          fun v => lookupField_setParam_ne q p k v hkp
        cases hl : lookupField clientQuery p with
        | none => split_ifs <;> simp_all
        | some v =>
            by_cases hv : v = ""
            · subst hv; split_ifs <;> simp_all
            · split_ifs <;> simp_all

theorem lookupField_copyFields (fields : List String)
    (clientBody acc : List (String × String)) (f : String) :
    lookupField (copyFields acc fields clientBody) f =
      if f ∈ fields ∧ (lookupField clientBody f).isSome then
        lookupField clientBody f
      else lookupField acc f := by
  induction fields generalizing acc with
  | nil => simp [copyFields]
  | cons p rest ih =>
      rw [copyFields, ih]
      by_cases hkp : f = p
      · subst hkp
        cases hl : lookupField clientBody f with
        | none => split_ifs <;> simp_all
        | some v =>
            have hs := lookupField_setParam_self acc f v
            split_ifs <;> simp_all
      · have hne : ∀ v, lookupField (setParam acc p v) f = lookupField acc f :=
          fun v => lookupField_setParam_ne acc p f v hkp
        cases hl : lookupField clientBody p with
        | none => split_ifs <;> simp_all
        | some v => split_ifs <;> simp_all

/-- C2: the outbound upstream request carries only whitelisted client
data plus the secret.  GET: the outbound query holds the secret under
`key`; a parameter outside `apiConfig.params` is taken from the config
URL only, never from the client; a whitelisted parameter is taken from
the client exactly when the client supplies a non-empty value.  POST:
the outbound body maps `key` to the secret, whitelisted fields to the
client body's values, and everything else to nothing; an unparseable
client body behaves as the empty object. -/
theorem c2_upstream_whitelisting (baseQuery : List (String × String))
    (params : List String) (clientQuery : List (String × String))
    (bodyFields : List String) (body : ClientJson) (secret : String)
    (hkey : "key" ∉ params) :
    lookupField (buildGetQuery baseQuery params clientQuery secret) "key" = some secret
    ∧ (∀ k, k ≠ "key" → k ∉ params →
        lookupField (buildGetQuery baseQuery params clientQuery secret) k =
          lookupField baseQuery k)
    ∧ (∀ k, k ∈ params →
        lookupField (buildGetQuery baseQuery params clientQuery secret) k =
          if (lookupField clientQuery k).getD "" ≠ "" then lookupField clientQuery k
          else lookupField baseQuery k)
    ∧ (∀ f, lookupField (buildPostBody bodyFields (clientObj body) secret) f =
        if f = "key" then some secret
        else if f ∈ bodyFields then lookupField (clientObj body) f else none)
    ∧ buildPostBody bodyFields (clientObj .malformed) secret =
        buildPostBody bodyFields [] secret := by
  refine ⟨?_, ?_, ?_, ?_, rfl⟩
  · rw [buildGetQuery, lookupField_copyParams]
    simp [hkey, lookupField_setParam_self]
  · intro k hk hkp
    rw [buildGetQuery, lookupField_copyParams]
    simp [hkp, lookupField_setParam_ne baseQuery "key" k secret hk]
  · intro k hk
    have hkne : k ≠ "key" := fun h => hkey (h ▸ hk)
    rw [buildGetQuery, lookupField_copyParams]
    simp [hk, lookupField_setParam_ne baseQuery "key" k secret hkne]
  · intro f
    by_cases hf : f = "key"
    · subst hf
      simp [buildPostBody, lookupField_setParam_self]
    · rw [buildPostBody, lookupField_setParam_ne _ _ _ _ hf, lookupField_copyFields]
      simp only [lookupField, hf, if_false]
      cases hl : lookupField (clientObj body) f with
      | none => split_ifs <;> simp_all [lookupField]
      | some v => split_ifs <;> simp_all [lookupField]

theorem c2_witness :
    lookupField (buildGetQuery [] ["q"] [("q", "London"), ("dropme", "x")] "sek") "key" =
      some "sek"
    ∧ lookupField (buildGetQuery [] ["q"] [("q", "London"), ("dropme", "x")] "sek") "dropme" =
        lookupField ([] : List (String × String)) "dropme"
    ∧ lookupField (buildGetQuery [] ["q"] [("q", "London"), ("dropme", "x")] "sek") "q" =
        (if (lookupField [("q", "London"), ("dropme", "x")] "q").getD "" ≠ "" then
          lookupField [("q", "London"), ("dropme", "x")] "q"
         else lookupField ([] : List (String × String)) "q")
    ∧ lookupField (buildPostBody ["event", "data"]
        (clientObj (.ok [("event", "click"), ("hack", "y")])) "sek") "hack" =
        (if "hack" = "key" then some "sek"
         else if "hack" ∈ ["event", "data"] then
           lookupField (clientObj (.ok [("event", "click"), ("hack", "y")])) "hack"
         else none)
    ∧ buildPostBody ["event", "data"] (clientObj .malformed) "sek" =
        buildPostBody ["event", "data"] [] "sek" := by
  obtain ⟨h1, h2, h3, h4, h5⟩ :=
    c2_upstream_whitelisting [] ["q"] [("q", "London"), ("dropme", "x")]
      ["event", "data"] (.ok [("event", "click"), ("hack", "y")]) "sek" (by decide)
  exact ⟨h1, h2 "dropme" (by decide) (by decide), h3 "q" (by decide), h4 "hack", h5⟩

/-! ## C10: the secret always overwrites a client-supplied `key` field -/

theorem lookupField_buildPostBody (fields : List String)
    (cb : List (String × String)) (secret : String) (f : String) :
    lookupField (buildPostBody fields cb secret) f =
      if f = "key" then some secret
      else if f ∈ fields then lookupField cb f else none := by
  by_cases hf : f = "key"
  · subst hf
    simp [buildPostBody, lookupField_setParam_self]
  · rw [buildPostBody, lookupField_setParam_ne _ _ _ _ hf, lookupField_copyFields]
    simp only [hf, if_false]
    cases hl : lookupField cb f with
    | none => split_ifs <;> simp_all [lookupField]
    | some v => split_ifs <;> simp_all [lookupField]

theorem removeParam_maskKeyValues (l : List (String × String)) (k : String) :
    removeParam (maskKeyValues l) k = maskKeyValues (removeParam l k) := by
  induction l with
  | nil => rfl
  | cons hd tl ih =>
      obtain ⟨a, b⟩ := hd
      rw [maskKeyValues, removeParam_cons]
      by_cases hak : a = "key"
      · subst hak
        rw [if_pos rfl]
        by_cases hk : "key" = k
        · rw [removeParam_cons, if_pos hk, if_pos hk, ih]
        · rw [removeParam_cons, if_neg hk, if_neg hk, ih, maskKeyValues, if_pos rfl]
      · rw [if_neg hak]
        by_cases hk : a = k
        · rw [removeParam_cons, if_pos hk, if_pos hk, ih]
        · rw [removeParam_cons, if_neg hk, if_neg hk, ih, maskKeyValues, if_neg hak]

theorem maskKeyValues_removeParam_key (l : List (String × String)) :
    maskKeyValues (removeParam l "key") = removeParam l "key" := by
  induction l with
  | nil => rfl
  | cons hd tl ih =>
      obtain ⟨a, b⟩ := hd
      rw [removeParam_cons]
      by_cases hak : a = "key"
      · rw [if_pos hak, ih]
      · rw [if_neg hak, maskKeyValues, if_neg hak, ih]

theorem setParam_maskKeyValues_key (l : List (String × String)) (v : String) :
    setParam (maskKeyValues l) "key" v = setParam l "key" v := by
  induction l with
  | nil => rfl
  | cons hd tl ih =>
      obtain ⟨a, b⟩ := hd
      rw [maskKeyValues]
      by_cases hak : a = "key"
      · subst hak
        rw [if_pos rfl, setParam, setParam, if_pos rfl, if_pos rfl,
            removeParam_maskKeyValues, maskKeyValues_removeParam_key]
      · rw [if_neg hak, setParam, setParam, if_neg hak, if_neg hak, ih]

theorem maskKeyValues_setParam (l : List (String × String)) (f v : String) :
    maskKeyValues (setParam l f v) =
      setParam (maskKeyValues l) f (if f = "key" then "" else v) := by
  induction l with
  | nil => by_cases hf : f = "key" <;> simp [maskKeyValues, setParam, hf]
  | cons hd tl ih =>
      obtain ⟨a, b⟩ := hd
      rw [setParam]
      by_cases haf : a = f
      · subst haf
        rw [if_pos rfl, maskKeyValues, maskKeyValues]
        by_cases hak : a = "key"
        · subst hak
          rw [if_pos rfl, if_pos rfl, setParam, if_pos rfl, if_pos rfl,
              removeParam_maskKeyValues]
        · rw [if_neg hak, if_neg hak, if_neg hak, setParam, if_pos rfl,
              removeParam_maskKeyValues]
      · rw [if_neg haf, maskKeyValues, maskKeyValues]
        by_cases hak : a = "key"
        · subst hak
          have hfk : ¬ "key" = f := haf
          rw [setParam]
          simp [hfk, ih]
        · rw [setParam]
          simp [hak, haf, ih]

theorem copyFields_mask_congr (fields : List String)
    (cb1 cb2 : List (String × String))
    (hagree : ∀ f, f ≠ "key" → lookupField cb1 f = lookupField cb2 f)
    (hpres : hasField cb1 "key" = hasField cb2 "key") :
    ∀ acc1 acc2, maskKeyValues acc1 = maskKeyValues acc2 →
      maskKeyValues (copyFields acc1 fields cb1) =
        maskKeyValues (copyFields acc2 fields cb2) := by
  induction fields with
  | nil => intro acc1 acc2 h; simpa [copyFields] using h
  | cons f rest ih =>
      intro acc1 acc2 hmask
      rw [copyFields, copyFields]
      by_cases hf : f = "key"
      · subst hf
        have h1 := hasField_eq_isSome cb1 "key"
        have h2 := hasField_eq_isSome cb2 "key"
        rw [h1, h2] at hpres
        cases hl1 : lookupField cb1 "key" with
        | none =>
            cases hl2 : lookupField cb2 "key" with
            | none => simp only [hl1, hl2]; exact ih _ _ hmask
            | some v2 => rw [hl1, hl2] at hpres; simp at hpres
        | some v1 =>
            cases hl2 : lookupField cb2 "key" with
            | none => rw [hl1, hl2] at hpres; simp at hpres
            | some v2 =>
                simp only [hl1, hl2]
                apply ih
                rw [maskKeyValues_setParam, maskKeyValues_setParam, hmask]
                simp
      · have heq := hagree f hf
        cases hl1 : lookupField cb1 f with
        | none =>
            rw [hl1] at heq
            simp only [hl1, ← heq]
            exact ih _ _ hmask
        | some v =>
            rw [hl1] at heq
            simp only [hl1, ← heq]
            apply ih
            rw [maskKeyValues_setParam, maskKeyValues_setParam, hmask]

theorem copyFields_congr_of_key_not_mem (fields : List String)
    (cb1 cb2 : List (String × String))
    (hagree : ∀ f, f ≠ "key" → lookupField cb1 f = lookupField cb2 f)
    (hnk : "key" ∉ fields) :
    ∀ acc, copyFields acc fields cb1 = copyFields acc fields cb2 := by
  induction fields with
  | nil => intro acc; rfl
  | cons f rest ih =>
      intro acc
      have hf : f ≠ "key" := fun h => hnk (by simp [h])
      have hrest : "key" ∉ rest := fun h => hnk (List.mem_cons_of_mem _ h)
      rw [copyFields, copyFields, ← hagree f hf]
      exact ih hrest _

/-- C10 (amended): the `key` field of the outbound POST body always
equals the secret; two client bodies agreeing on every field other than
`key` yield outbound bodies that agree field-for-field, and yield
identical outbound bodies whenever `key` is not a whitelisted body field
or both bodies agree on whether a `key` field is present.  (When `key`
is whitelisted and present in exactly one of the two bodies, the
outbound bodies hold the same fields and values but may order them
differently.) -/
theorem c10_secret_overwrites_client_key (bodyFields : List String)
    (cb1 cb2 : List (String × String)) (secret : String)
    (hagree : ∀ f, f ≠ "key" → lookupField cb1 f = lookupField cb2 f) :
    lookupField (buildPostBody bodyFields cb1 secret) "key" = some secret
    ∧ (∀ f, lookupField (buildPostBody bodyFields cb1 secret) f =
        lookupField (buildPostBody bodyFields cb2 secret) f)
    ∧ ("key" ∉ bodyFields ∨ hasField cb1 "key" = hasField cb2 "key" →
        buildPostBody bodyFields cb1 secret = buildPostBody bodyFields cb2 secret) := by
  refine ⟨?_, ?_, ?_⟩
  · rw [lookupField_buildPostBody]; simp
  · intro f
    rw [lookupField_buildPostBody, lookupField_buildPostBody]
    by_cases hf : f = "key"
    · simp [hf]
    · simp only [hf, if_false]
      split_ifs with hmem
      · exact hagree f hf
      · rfl
  · rintro (hnk | hpres)
    · unfold buildPostBody
      rw [copyFields_congr_of_key_not_mem bodyFields cb1 cb2 hagree hnk]
    · unfold buildPostBody
      rw [← setParam_maskKeyValues_key (copyFields [] bodyFields cb1),
          ← setParam_maskKeyValues_key (copyFields [] bodyFields cb2),
          copyFields_mask_congr bodyFields cb1 cb2 hagree hpres [] [] rfl]

/-- C10 counterexample: two client bodies that differ only in their
`key` field (their `key`-stripped contents coincide) but produce
different outbound bodies, because with `key` whitelisted and present in
only one body the secret lands at different positions. -/
theorem c10_counterexample :
    removeParam [("key", "x"), ("a", "1")] "key" = removeParam [("a", "1")] "key"
    ∧ buildPostBody ["key", "a"] [("key", "x"), ("a", "1")] "S" ≠
        buildPostBody ["key", "a"] [("a", "1")] "S" := by decide

theorem c10_witness :
    lookupField (buildPostBody ["key", "a"] [("key", "x"), ("a", "1")] "S") "key" =
      some "S"
    ∧ lookupField (buildPostBody ["key", "a"] [("key", "x"), ("a", "1")] "S") "a" =
        lookupField (buildPostBody ["key", "a"] [("key", "y"), ("a", "1")] "S") "a"
    ∧ buildPostBody ["key", "a"] [("key", "x"), ("a", "1")] "S" =
        buildPostBody ["key", "a"] [("key", "y"), ("a", "1")] "S" := by
  obtain ⟨h1, h2, h3⟩ := c10_secret_overwrites_client_key ["key", "a"]
    [("key", "x"), ("a", "1")] [("key", "y"), ("a", "1")] "S"
    (by intro f hf; simp [lookupField, Ne.symm hf])
  exact ⟨h1, h2 "a", h3 (Or.inr (by decide))⟩

/-! ## C1: fixed-window rate limiting -/

theorem checkRateLimit_fresh (id : String) (t : Nat) (b : Bool) :
    checkRateLimit id t b [] =
      (⟨true, maxRequests - 1, t + windowMs⟩, [(id, ⟨1, t + windowMs⟩)]) := by
  cases b <;> rfl

theorem checkRateLimit_active (id : String) (t b c R)
    (hle : t ≤ R) (hlt : c < maxRequests) :
    checkRateLimit id t b [(id, ⟨c, R⟩)] =
      (⟨true, maxRequests - (c + 1), R⟩, [(id, ⟨c + 1, R⟩)]) := by
  have hgt : ¬ t > R := Nat.not_lt.mpr hle
  have hge : ¬ c ≥ maxRequests := Nat.not_le.mpr hlt
  cases b <;>
    simp [checkRateLimit, hgt, hge, hasField, lookupField, setParam, removeParam]

theorem checkRateLimit_blocked (id : String) (t b c R)
    (hle : t ≤ R) (hge : c ≥ maxRequests) :
    checkRateLimit id t b [(id, ⟨c, R⟩)] = (⟨false, 0, R⟩, [(id, ⟨c, R⟩)]) := by
  have hgt : ¬ t > R := Nat.not_lt.mpr hle
  cases b <;>
    simp [checkRateLimit, hgt, hge, hasField, lookupField, setParam, removeParam]

theorem checkRateLimit_reset (id : String) (t b c R) (hgt : R < t) :
    checkRateLimit id t b [(id, ⟨c, R⟩)] =
      (⟨true, maxRequests - 1, t + windowMs⟩, [(id, ⟨1, t + windowMs⟩)]) := by
  cases b <;>
    simp [checkRateLimit, hgt, hasField, lookupField, setParam, removeParam]

/-- Characterisation of a sequence of calls inside one window: counts
climb until `maxRequests` and stick there; each call before the cap is
allowed with `remaining = maxRequests - count`, each one after is
denied with remaining 0 and the unchanged reset time. -/
theorem runChecks_within_window (id : String) (calls : List (Nat × Bool))
    (c R : Nat) (hc1 : 1 ≤ c) (hc2 : c ≤ maxRequests)
    (hts : ∀ p ∈ calls, p.1 ≤ R) :
    runChecks id calls [(id, ⟨c, R⟩)] =
      ((List.range calls.length).map (fun i =>
          if c + i < maxRequests then ⟨true, (maxRequests - 1) - (c + i), R⟩
          else ⟨false, 0, R⟩),
       [(id, ⟨min (c + calls.length) maxRequests, R⟩)]) := by
  induction calls generalizing c with
  | nil =>
      rw [runChecks]
      simp [min_eq_left hc2]
  | cons hd rest ih =>
      obtain ⟨t, b⟩ := hd
      have ht : t ≤ R := hts (t, b) (by simp)
      have hts' : ∀ p ∈ rest, p.1 ≤ R := fun p hp => hts p (by simp [hp])
      rw [runChecks]
      by_cases hc : c < maxRequests
      · rw [checkRateLimit_active id t b c R ht hc]
        simp only
        rw [ih (c + 1) (by omega) (by omega) hts']
        simp only [Prod.mk.injEq, List.length_cons, List.range_succ_eq_map,
          List.map_cons, List.map_map, List.cons.injEq]
        refine ⟨⟨?_, ?_⟩, ?_⟩
        · simp [hc]
          omega
        · apply List.map_congr_left
          intro i _
          simp only [Function.comp_apply, Nat.succ_eq_add_one]
          have h1 : c + (i + 1) = c + 1 + i := by omega
          rw [h1]
        · have h2 : c + 1 + rest.length = c + (rest.length + 1) := by omega
          rw [h2]
          simp
      · have hceq : c = maxRequests := by omega
        subst hceq
        rw [checkRateLimit_blocked id t b maxRequests R ht (le_refl _)]
        simp only
        rw [ih maxRequests (by omega) (le_refl _) hts']
        simp only [Prod.mk.injEq, List.length_cons, List.range_succ_eq_map,
          List.map_cons, List.map_map, List.cons.injEq]
        refine ⟨⟨?_, ?_⟩, ?_⟩
        · have h0 : ¬ maxRequests + 0 < maxRequests := by omega
          simp [h0]
        · apply List.map_congr_left
          intro i _
          simp only [Function.comp_apply, Nat.succ_eq_add_one]
          have h1 : ¬ maxRequests + (i + 1) < maxRequests := by omega
          have h2 : ¬ maxRequests + i < maxRequests := by omega
          simp [h1, h2]
        · rw [min_eq_right (Nat.le_add_right _ _),
             min_eq_right (Nat.le_add_right _ _)]
          simp

theorem map_range_succ_shift (f : Nat → α) (n : Nat) :
    (List.range (n + 1)).map f = f 0 :: (List.range n).map (fun i => f (1 + i)) := by
  rw [List.range_succ_eq_map, List.map_cons, List.map_map]
  refine congrArg (f 0 :: ·) (List.map_congr_left fun i _ => ?_)
  simp [Function.comp, Nat.succ_eq_add_one, Nat.add_comm]

/-- C1: starting from an empty store, 101 calls for one identifier
inside a single window behave as a fixed-window counter — the first 100
are allowed with `remaining = maxRequests - count` and the shared reset
time `t0 + windowMs`, the 101st is denied with remaining 0 and the
unchanged reset time — and the first call strictly after the window
reset time is allowed again with the counter restarted at 1 and reset
time `tNew + windowMs`. -/
theorem c1_rate_limiter_fixed_window (id : String) (t0 tNew : Nat)
    (b0 bNew : Bool) (rest : List (Nat × Bool)) (hlen : rest.length = 100)
    (hwin : ∀ p ∈ rest, t0 ≤ p.1 ∧ p.1 ≤ t0 + windowMs)
    (hnew : t0 + windowMs < tNew) :
    runChecks id ((t0, b0) :: rest) [] =
      ((List.range 101).map (fun i =>
          if i < maxRequests then ⟨true, (maxRequests - 1) - i, t0 + windowMs⟩
          else ⟨false, 0, t0 + windowMs⟩),
       [(id, ⟨maxRequests, t0 + windowMs⟩)])
    ∧ checkRateLimit id tNew bNew [(id, ⟨maxRequests, t0 + windowMs⟩)] =
        (⟨true, maxRequests - 1, tNew + windowMs⟩,
         [(id, ⟨1, tNew + windowMs⟩)]) := by
  constructor
  · rw [runChecks, checkRateLimit_fresh]
    simp only
    rw [runChecks_within_window id rest 1 (t0 + windowMs) (le_refl _)
      (by decide) (fun p hp => (hwin p hp).2), hlen]
    conv_rhs => rw [show (101 : Nat) = 100 + 1 from rfl, map_range_succ_shift]
    simp only [Prod.mk.injEq, List.cons.injEq]
    refine ⟨⟨?_, ?_⟩, ?_⟩
    · simp [maxRequests]
    · trivial
    · simp [maxRequests, Nat.min_def]
  · exact checkRateLimit_reset id tNew bNew maxRequests (t0 + windowMs) hnew

theorem c1_witness :
    (runChecks "1.2.3.4" ((0, false) :: List.replicate 100 (0, false)) [] =
      ((List.range 101).map (fun i =>
          if i < maxRequests then ⟨true, (maxRequests - 1) - i, 0 + windowMs⟩
          else ⟨false, 0, 0 + windowMs⟩),
       [("1.2.3.4", ⟨maxRequests, 0 + windowMs⟩)]))
    ∧ checkRateLimit "1.2.3.4" 60001 false [("1.2.3.4", ⟨maxRequests, 0 + windowMs⟩)] =
        (⟨true, maxRequests - 1, 60001 + windowMs⟩,
         [("1.2.3.4", ⟨1, 60001 + windowMs⟩)]) :=
  c1_rate_limiter_fixed_window "1.2.3.4" 0 60001 false false
    (List.replicate 100 (0, false)) (by simp)
    (by
      intro p hp
      rw [List.eq_of_mem_replicate hp]
      simp [windowMs])
    (by simp [windowMs])

/-! ## C4: rate-limit store invariants -/

/-- Cleanup commutes: a call with the cleanup coin flip set behaves
exactly like a cleanup-free call on the filtered store. -/
theorem checkRateLimit_true_eq (id : String) (now : Nat) (s : RateLimitStore) :
    checkRateLimit id now true s =
      checkRateLimit id now false
        (s.filter (fun p => !(decide (now > p.2.resetAt)))) := rfl

/-- Branch analysis of a cleanup-free `checkRateLimit` call over an
arbitrary store: it either installs a fresh entry (create or window
reset), denies leaving the store unchanged, or increments. -/
theorem checkRateLimit_cases (id : String) (now : Nat) (s : RateLimitStore) :
    ((checkRateLimit id now false s).1.allowed = true ∧
      (checkRateLimit id now false s).2 = setParam s id ⟨1, now + windowMs⟩)
    ∨ (∃ data, lookupField s id = some data
        ∧ ¬ now > data.resetAt ∧ data.count ≥ maxRequests
        ∧ (checkRateLimit id now false s).1.allowed = false
        ∧ (checkRateLimit id now false s).2 = s)
    ∨ (∃ data, lookupField s id = some data
        ∧ ¬ now > data.resetAt ∧ data.count < maxRequests
        ∧ (checkRateLimit id now false s).1.allowed = true
        ∧ (checkRateLimit id now false s).2 =
            setParam s id ⟨data.count + 1, data.resetAt⟩) := by
  by_cases h1 : hasField s id = false
  · have heq : checkRateLimit id now false s =
        (⟨true, maxRequests - 1, now + windowMs⟩, setParam s id ⟨1, now + windowMs⟩) := by
      simp [checkRateLimit, h1]
    exact Or.inl ⟨by rw [heq], by rw [heq]⟩
  · have h1s : (lookupField s id).isSome = true := by
      rw [← hasField_eq_isSome]
      revert h1
      cases hasField s id <;> simp
    obtain ⟨data, hdata⟩ := Option.isSome_iff_exists.mp h1s
    by_cases h2 : now > data.resetAt
    · have heq : checkRateLimit id now false s =
          (⟨true, maxRequests - 1, now + windowMs⟩, setParam s id ⟨1, now + windowMs⟩) := by
        simp [checkRateLimit, h1, hdata, h2]
      exact Or.inl ⟨by rw [heq], by rw [heq]⟩
    · by_cases h3 : data.count ≥ maxRequests
      · have heq : checkRateLimit id now false s = (⟨false, 0, data.resetAt⟩, s) := by
          simp [checkRateLimit, h1, hdata, h2, h3]
        exact Or.inr (Or.inl ⟨data, hdata, h2, h3, by rw [heq], by rw [heq]⟩)
      · have heq : checkRateLimit id now false s =
            (⟨true, maxRequests - (data.count + 1), data.resetAt⟩,
             setParam s id ⟨data.count + 1, data.resetAt⟩) := by
          simp [checkRateLimit, h1, hdata, h2, h3]
        exact Or.inr (Or.inr ⟨data, hdata, h2, by omega, by rw [heq], by rw [heq]⟩)

/-- C4 for cleanup-free calls, over an arbitrary well-formed store. -/
theorem c4_core (id : String) (now : Nat) (s : RateLimitStore)
    (hinv : ∀ p ∈ s, p.2.count ≤ maxRequests) :
    (∀ p ∈ (checkRateLimit id now false s).2, p.2.count ≤ maxRequests)
    ∧ ((checkRateLimit id now false s).1.allowed = false →
        lookupField (checkRateLimit id now false s).2 id = lookupField s id)
    ∧ (∀ k e, lookupField s k = some e →
        (lookupField (checkRateLimit id now false s).2 k).isSome = true) := by
  rcases checkRateLimit_cases id now s with
    ⟨hal, hs'⟩ | ⟨data, hl, hgt, hge, hal, hs'⟩ | ⟨data, hl, hgt, hlt, hal, hs'⟩
  · refine ⟨?_, ?_, ?_⟩
    · intro p hp
      rw [hs'] at hp
      rcases mem_setParam _ _ _ _ hp with hpe | hpm
      · subst hpe; exact (by decide : (1 : Nat) ≤ maxRequests)
      · exact hinv p hpm
    · intro hfalse
      rw [hal] at hfalse
      exact absurd hfalse (by simp)
    · intro k e hke
      rw [hs']
      by_cases hk : k = id
      · subst hk
        rw [lookupField_setParam_self]
        rfl
      · rw [lookupField_setParam_ne _ _ _ _ hk, hke]
        rfl
  · refine ⟨?_, ?_, ?_⟩
    · intro p hp
      rw [hs'] at hp
      exact hinv p hp
    · intro _
      rw [hs']
    · intro k e hke
      rw [hs', hke]
      rfl
  · refine ⟨?_, ?_, ?_⟩
    · intro p hp
      rw [hs'] at hp
      rcases mem_setParam _ _ _ _ hp with hpe | hpm
      · subst hpe
        simp only []
        omega
      · exact hinv p hpm
    · intro hfalse
      rw [hal] at hfalse
      exact absurd hfalse (by simp)
    · intro k e hke
      rw [hs']
      by_cases hk : k = id
      · subst hk
        rw [lookupField_setParam_self]
        rfl
      · rw [lookupField_setParam_ne _ _ _ _ hk, hke]
        rfl

/-- C4: assuming well-formed keys, every call to the rate limiter
preserves the bound `count ≤ maxRequests` on every entry; a denied call
leaves the denied identifier's entry (count and reset time) unchanged;
and the opportunistic cleanup never removes an entry whose window has
not yet expired. -/
theorem c4_store_invariant (id : String) (now : Nat) (b : Bool)
    (s : RateLimitStore) (hnd : (s.map Prod.fst).Nodup)
    (hinv : ∀ p ∈ s, p.2.count ≤ maxRequests) :
    (∀ p ∈ (checkRateLimit id now b s).2, p.2.count ≤ maxRequests)
    ∧ ((checkRateLimit id now b s).1.allowed = false →
        lookupField (checkRateLimit id now b s).2 id = lookupField s id)
    ∧ (∀ k e, lookupField s k = some e → now ≤ e.resetAt →
        (lookupField (checkRateLimit id now b s).2 k).isSome = true) := by
  cases b
  · obtain ⟨hA, hB, hC⟩ := c4_core id now s hinv
    exact ⟨hA, hB, fun k e hke _ => hC k e hke⟩
  · rw [checkRateLimit_true_eq]
    have hfsub : ∀ p ∈ s.filter (fun p => !(decide (now > p.2.resetAt))), p ∈ s :=
      fun p hp => List.mem_of_mem_filter hp
    obtain ⟨hA, hB, hC⟩ :=
      c4_core id now (s.filter (fun p => !(decide (now > p.2.resetAt))))
        (fun p hp => hinv p (hfsub p hp))
    refine ⟨hA, ?_, ?_⟩
    · intro hfalse
      rw [hB hfalse]
      rcases checkRateLimit_cases id now
          (s.filter (fun p => !(decide (now > p.2.resetAt)))) with
        ⟨hal, _⟩ | ⟨data, hl, _, _, _, _⟩ | ⟨data, hl, _, _, hal, _⟩
      · rw [hfalse] at hal
        exact absurd hal (by simp)
      · rw [hl, lookupField_filter_some s _ id data hnd hl]
      · rw [hal] at hfalse
        exact absurd hfalse (by simp)
    · intro k e hke hle
      exact hC k e
        (lookupField_filter_keep s _ k e hke (by simp [Nat.not_lt.mpr hle]))

theorem c4_witness :
    (∀ p ∈ (checkRateLimit "1.2.3.4" 70000 true
        ([("1.2.3.4", ⟨100, 80000⟩), ("5.6.7.8", ⟨3, 60000⟩)] : RateLimitStore)).2,
      p.2.count ≤ maxRequests)
    ∧ ((checkRateLimit "1.2.3.4" 70000 true
        ([("1.2.3.4", ⟨100, 80000⟩), ("5.6.7.8", ⟨3, 60000⟩)] : RateLimitStore)).1.allowed = false →
        lookupField (checkRateLimit "1.2.3.4" 70000 true
          ([("1.2.3.4", ⟨100, 80000⟩), ("5.6.7.8", ⟨3, 60000⟩)] : RateLimitStore)).2 "1.2.3.4" =
          lookupField ([("1.2.3.4", ⟨100, 80000⟩), ("5.6.7.8", ⟨3, 60000⟩)] : RateLimitStore) "1.2.3.4")
    ∧ (∀ k e, lookupField ([("1.2.3.4", ⟨100, 80000⟩), ("5.6.7.8", ⟨3, 60000⟩)] : RateLimitStore) k = some e →
        70000 ≤ e.resetAt →
        (lookupField (checkRateLimit "1.2.3.4" 70000 true
          ([("1.2.3.4", ⟨100, 80000⟩), ("5.6.7.8", ⟨3, 60000⟩)] : RateLimitStore)).2 k).isSome = true) :=
  c4_store_invariant "1.2.3.4" 70000 true
    [("1.2.3.4", ⟨100, 80000⟩), ("5.6.7.8", ⟨3, 60000⟩)]
    (by decide) (by decide)

/-! ## C9: OPTIONS preflight short-circuit -/

/-- C9: every OPTIONS request — regardless of path, app/API existence,
origin whitelisting or rate-limit state — returns 204 with the CORS
preflight headers (`Access-Control-Allow-Origin` echoing a non-empty
Origin header and `*` otherwise), touches neither the rate-limit store
nor the cache, and issues no outbound request. -/
theorem c9_options_preflight (cfg : List (String × AppConfig))
    (req : WorkerRequest) (env : List (String × String))
    (cache : List (String × WorkerResponse)) (rl : RateLimitStore)
    (now : Nat) (b : Bool) (up : UpstreamOutcome)
    (hm : req.method = "OPTIONS") :
    workerFetch cfg req env cache rl now b up =
      ⟨{ status := 204,
         headers := [("Access-Control-Allow-Origin",
                        if req.originHeader.getD "" = "" then "*"
                        else req.originHeader.getD ""),
                     ("Access-Control-Allow-Methods", "GET, POST, OPTIONS"),
                     ("Access-Control-Allow-Headers", "Content-Type"),
                     ("Access-Control-Max-Age", "86400")],
         body := .empty }, rl, none, none⟩ := by
  simp [workerFetch, hm, handleCORS]

theorem c9_witness :
    workerFetch APP_CONFIG
      { method := "OPTIONS", url := "u1", pathname := "/myblog/weather",
        query := [], originHeader := some "https://evil.com",
        refererHeader := none, ipHeader := some "1.2.3.4", bodyJson := .ok [] }
      [] [] [("1.2.3.4", ⟨100, 99999⟩)] 0 false .timeout =
      ⟨{ status := 204,
         headers := [("Access-Control-Allow-Origin",
                        if (some "https://evil.com" : Option String).getD "" = "" then "*"
                        else (some "https://evil.com" : Option String).getD ""),
                     ("Access-Control-Allow-Methods", "GET, POST, OPTIONS"),
                     ("Access-Control-Allow-Headers", "Content-Type"),
                     ("Access-Control-Max-Age", "86400")],
         body := .empty }, [("1.2.3.4", ⟨100, 99999⟩)], none, none⟩ :=
  c9_options_preflight APP_CONFIG
    { method := "OPTIONS", url := "u1", pathname := "/myblog/weather",
      query := [], originHeader := some "https://evil.com",
      refererHeader := none, ipHeader := some "1.2.3.4", bodyJson := .ok [] }
    [] [] [("1.2.3.4", ⟨100, 99999⟩)] 0 false .timeout rfl

/-! ## C7: upstream failure translation -/

/-- C7: on the forwarding path (route resolved, origin allowed, rate
limit passed, no cache hit), a missing secret yields the 500
Configuration error without issuing any outbound request (the result is
the same for every upstream outcome); with the secret present, an
aborted (timed-out) call yields 504 Gateway Timeout and any other
transport failure yields 502 Bad Gateway — two distinct responses —
both after the outbound request was issued. -/
theorem c7_failure_translation (cfg : List (String × AppConfig))
    (req : WorkerRequest) (env : List (String × String))
    (cache : List (String × WorkerResponse)) (rl : RateLimitStore)
    (now : Nat) (b : Bool)
    (appName apiName : String) (tail : List String)
    (appCfg : AppConfig) (apiCfg : ApiConfig)
    (hm : req.method ≠ "OPTIONS")
    (hroute : pathPartsOf req.pathname = appName :: apiName :: tail)
    (happ : lookupField cfg appName = some appCfg)
    (hapi : lookupField appCfg.apis apiName = some apiCfg)
    (horig : isAllowedOrigin appCfg.origins (req.originHeader.getD "")
        (req.refererHeader.getD "") = true)
    (hallow : (checkRateLimit (req.ipHeader.getD "unknown") now b rl).1.allowed = true)
    (hmiss : apiCfg.cache = 0 ∨ lookupField cache req.url = none) :
    (lookupField env apiCfg.secret = none →
      ∀ up, workerFetch cfg req env cache rl now b up =
        ⟨jsonResponse [("error", .str "Configuration error")] 500,
         (checkRateLimit (req.ipHeader.getD "unknown") now b rl).2, none, none⟩)
    ∧ (∀ sv, lookupField env apiCfg.secret = some sv → sv ≠ "" →
        ∃ ob, workerFetch cfg req env cache rl now b .timeout =
          ⟨jsonResponse [("error", .str "Gateway Timeout"),
              ("message", .str "External API took too long to respond")] 504,
           (checkRateLimit (req.ipHeader.getD "unknown") now b rl).2, none, some ob⟩)
    ∧ (∀ sv, lookupField env apiCfg.secret = some sv → sv ≠ "" →
        ∃ ob, workerFetch cfg req env cache rl now b .failure =
          ⟨jsonResponse [("error", .str "Bad Gateway"),
              ("message", .str "Failed to reach external API")] 502,
           (checkRateLimit (req.ipHeader.getD "unknown") now b rl).2, none, some ob⟩) := by
  have hhit : (if apiCfg.cache ≠ 0 then lookupField cache req.url else none) = none := by
    rcases hmiss with h | h
    · simp [h]
    · simp [h]
  refine ⟨?_, ?_, ?_⟩
  · intro hsec up
    simp [workerFetch, hm, hroute, happ, hapi, horig, perIP, hallow, hhit, hsec,
      jsonResponse]
  · intro sv hsv hne
    refine ⟨{ urlBase := apiCfg.urlBase,
              query := if apiCfg.method = "GET" ∧ apiCfg.params.isSome then
                  buildGetQuery apiCfg.urlQuery (apiCfg.params.getD []) req.query sv
                else apiCfg.urlQuery,
              method := apiCfg.method,
              body := if apiCfg.method = "POST" ∧ apiCfg.bodyFields.isSome then
                  some (buildPostBody (apiCfg.bodyFields.getD [])
                    (clientObj req.bodyJson) sv)
                else none }, ?_⟩
    simp [workerFetch, hm, hroute, happ, hapi, horig, perIP, hallow, hhit, hsv, hne,
      jsonResponse]
  · intro sv hsv hne
    refine ⟨{ urlBase := apiCfg.urlBase,
              query := if apiCfg.method = "GET" ∧ apiCfg.params.isSome then
                  buildGetQuery apiCfg.urlQuery (apiCfg.params.getD []) req.query sv
                else apiCfg.urlQuery,
              method := apiCfg.method,
              body := if apiCfg.method = "POST" ∧ apiCfg.bodyFields.isSome then
                  some (buildPostBody (apiCfg.bodyFields.getD [])
                    (clientObj req.bodyJson) sv)
                else none }, ?_⟩
    simp [workerFetch, hm, hroute, happ, hapi, horig, perIP, hallow, hhit, hsv, hne,
      jsonResponse]

theorem c7_witness :
    workerFetch APP_CONFIG
      { method := "GET", url := "u1", pathname := "/myblog/weather",
        query := [("q", "London")], originHeader := some "http://localhost:5500",
        refererHeader := none, ipHeader := some "1.2.3.4", bodyJson := .ok [] }
      [] [] [] 0 false .timeout =
      ⟨jsonResponse [("error", .str "Configuration error")] 500,
       [("1.2.3.4", ⟨1, 60000⟩)], none, none⟩ :=
  (c7_failure_translation APP_CONFIG
      { method := "GET", url := "u1", pathname := "/myblog/weather",
        query := [("q", "London")], originHeader := some "http://localhost:5500",
        refererHeader := none, ipHeader := some "1.2.3.4", bodyJson := .ok [] }
      [] [] [] 0 false "myblog" "weather" []
      { origins := ["http://localhost:5500"],
        apis := [("weather",
                   { urlBase := "https://api.weatherapi.com/v1/current.json",
                     urlQuery := [], secret := "MYBLOG_WEATHER_KEY",
                     method := "GET", params := some ["q"],
                     bodyFields := none, cache := 300 }),
                 ("analytics",
                   { urlBase := "https://api.example.com/track",
                     urlQuery := [], secret := "MYBLOG_ANALYTICS_KEY",
                     method := "POST", params := none,
                     bodyFields := some ["event", "data"], cache := 0 })] }
      { urlBase := "https://api.weatherapi.com/v1/current.json",
        urlQuery := [], secret := "MYBLOG_WEATHER_KEY",
        method := "GET", params := some ["q"],
        bodyFields := none, cache := 300 }
      (by decide) (by decide) (by decide) (by decide) (by decide) (by decide)
      (Or.inr rfl)).1 rfl .timeout

/-! ## C5: cache writes only for successful responses of caching APIs -/

/-- C5: a cache write happens only when the resolved API has caching
enabled (`cache ≠ 0`) and the upstream call returned a success-range
status; on every other path — upstream failure or timeout, non-success
status, caching disabled, or any earlier exit — nothing is stored. -/
theorem c5_cache_write_guard (cfg : List (String × AppConfig))
    (req : WorkerRequest) (env : List (String × String))
    (cache : List (String × WorkerResponse)) (rl : RateLimitStore)
    (now : Nat) (b : Bool) (up : UpstreamOutcome) (w : String × WorkerResponse)
    (h : (workerFetch cfg req env cache rl now b up).cacheWrite = some w) :
    (∃ st ct bd, up = .success st ct bd ∧ responseOk st = true)
    ∧ (∃ appName apiName tail appCfg apiCfg,
        pathPartsOf req.pathname = appName :: apiName :: tail
        ∧ lookupField cfg appName = some appCfg
        ∧ lookupField appCfg.apis apiName = some apiCfg
        ∧ apiCfg.cache ≠ 0) := by
  by_cases hm : req.method = "OPTIONS"
  · simp [workerFetch, hm] at h
  · rw [workerFetch] at h
    simp only [hm, if_false, perIP, eq_self_iff_true, if_true] at h
    split at h
    · rename_i appName apiName tail hroute
      rcases happ : lookupField cfg appName with _ | appCfg
      · rw [happ] at h; simp at h
      · rw [happ] at h
        simp only at h
        rcases hapi : lookupField appCfg.apis apiName with _ | apiCfg
        · rw [hapi] at h; simp at h
        · rw [hapi] at h
          simp only at h
          split at h
          · simp at h
          · split at h
            · simp at h
            · split at h
              · simp at h
              · rcases hsec : lookupField env apiCfg.secret with _ | sv
                · rw [hsec] at h; simp at h
                · rw [hsec] at h
                  simp only [Option.getD_some] at h
                  split at h
                  · simp at h
                  · cases up with
                    | success st ct bd =>
                        simp only at h
                        split at h
                        · rename_i hok
                          exact ⟨⟨st, ct, bd, rfl, hok.2⟩,
                            appName, apiName, tail, appCfg, apiCfg,
                            hroute, happ, hapi, hok.1⟩
                        · simp at h
                    | timeout => simp at h
                    | failure => simp at h
    · simp at h

theorem c5_witness :
    (∃ st ct bd, (.success 200 none "B" : UpstreamOutcome) = .success st ct bd
      ∧ responseOk st = true)
    ∧ (∃ appName apiName tail appCfg apiCfg,
        pathPartsOf "/myblog/weather" = appName :: apiName :: tail
        ∧ lookupField APP_CONFIG appName = some appCfg
        ∧ lookupField appCfg.apis apiName = some apiCfg
        ∧ apiCfg.cache ≠ 0) :=
  c5_cache_write_guard APP_CONFIG
    { method := "GET", url := "u1", pathname := "/myblog/weather",
      query := [("q", "London")], originHeader := some "http://localhost:5500",
      refererHeader := none, ipHeader := some "1.2.3.4", bodyJson := .ok [] }
    [("MYBLOG_WEATHER_KEY", "sek")] [] [] 0 false (.success 200 none "B")
    ("u1",
     { status := 200,
       headers := [("Content-Type", "application/json"),
                   ("Cache-Control", "public, max-age=300"),
                   ("X-StatEnv-App", "myblog"), ("X-StatEnv-API", "weather"),
                   ("X-RateLimit-Limit", "100"), ("X-RateLimit-Remaining", "99"),
                   ("X-RateLimit-Reset", "60000"), ("X-Cache", "MISS")],
       body := .text "B" })
    (by decide)

/-! ## C6: cache hits preserve the stored response -/

/-- C6: on a cache hit the returned response is the stored response with
only `X-Cache: HIT`, the three freshly computed rate-limit headers, and
the two CORS headers changed — status, body and all other headers are
those of the stored original; no outbound request is issued and nothing
new is cached; and whatever the cache contains (hit or miss), the
rate-limit store is advanced by exactly one `checkRateLimit` call. -/
theorem c6_cache_hit_frame (cfg : List (String × AppConfig))
    (req : WorkerRequest) (env : List (String × String))
    (cache : List (String × WorkerResponse)) (rl : RateLimitStore)
    (now : Nat) (b : Bool)
    (appName apiName : String) (tail : List String)
    (appCfg : AppConfig) (apiCfg : ApiConfig) (stored : WorkerResponse)
    (hm : req.method ≠ "OPTIONS")
    (hroute : pathPartsOf req.pathname = appName :: apiName :: tail)
    (happ : lookupField cfg appName = some appCfg)
    (hapi : lookupField appCfg.apis apiName = some apiCfg)
    (horig : isAllowedOrigin appCfg.origins (req.originHeader.getD "")
        (req.refererHeader.getD "") = true)
    (hallow : (checkRateLimit (req.ipHeader.getD "unknown") now b rl).1.allowed = true)
    (hcache : apiCfg.cache ≠ 0)
    (hhit : lookupField cache req.url = some stored) :
    (∀ up, workerFetch cfg req env cache rl now b up =
      ⟨addCORSHeaders
        { stored with headers :=
            (setParam
              (setParam
                (setParam (setParam stored.headers "X-Cache" "HIT")
                  "X-RateLimit-Limit" (toString maxRequests))
                "X-RateLimit-Remaining"
                (toString (checkRateLimit (req.ipHeader.getD "unknown") now b rl).1.remaining))
              "X-RateLimit-Reset"
              (toString (checkRateLimit (req.ipHeader.getD "unknown") now b rl).1.resetAt)) }
        (req.originHeader.getD ""),
       (checkRateLimit (req.ipHeader.getD "unknown") now b rl).2, none, none⟩)
    ∧ (∀ up, (workerFetch cfg req env cache rl now b up).response.status = stored.status)
    ∧ (∀ up, (workerFetch cfg req env cache rl now b up).response.body = stored.body)
    ∧ (∀ up, (workerFetch cfg req env cache rl now b up).outbound = none)
    ∧ (∀ up, (workerFetch cfg req env cache rl now b up).cacheWrite = none)
    ∧ (∀ hn, hn ∉ ["X-Cache", "X-RateLimit-Limit", "X-RateLimit-Remaining",
          "X-RateLimit-Reset", "Access-Control-Allow-Origin",
          "Access-Control-Allow-Methods"] →
        ∀ up, lookupField (workerFetch cfg req env cache rl now b up).response.headers hn =
          lookupField stored.headers hn)
    ∧ (∀ cacheAny up, (workerFetch cfg req env cacheAny rl now b up).rlStore =
        (checkRateLimit (req.ipHeader.getD "unknown") now b rl).2) := by
  have hmain : ∀ up : UpstreamOutcome, workerFetch cfg req env cache rl now b up =
      ⟨addCORSHeaders
        { stored with headers :=
            (setParam
              (setParam
                (setParam (setParam stored.headers "X-Cache" "HIT")
                  "X-RateLimit-Limit" (toString maxRequests))
                "X-RateLimit-Remaining"
                (toString (checkRateLimit (req.ipHeader.getD "unknown") now b rl).1.remaining))
              "X-RateLimit-Reset"
              (toString (checkRateLimit (req.ipHeader.getD "unknown") now b rl).1.resetAt)) }
        (req.originHeader.getD ""),
       (checkRateLimit (req.ipHeader.getD "unknown") now b rl).2, none, none⟩ := by
    intro up
    simp [workerFetch, hm, hroute, happ, hapi, horig, perIP, hallow, hcache, hhit]
  refine ⟨hmain, ?_, ?_, ?_, ?_, ?_, ?_⟩
  · intro up; rw [hmain up]; rfl
  · intro up; rw [hmain up]; rfl
  · intro up; rw [hmain up]
  · intro up; rw [hmain up]
  · intro hn hmem up
    rw [hmain up]
    simp at hmem
    obtain ⟨n1, n2, n3, n4, n5, n6⟩ := hmem
    show lookupField (addCORSHeaders _ _).headers hn = _
    rw [addCORSHeaders]
    simp only
    rw [lookupField_setParam_ne _ _ _ _ n6, lookupField_setParam_ne _ _ _ _ n5,
        lookupField_setParam_ne _ _ _ _ n4, lookupField_setParam_ne _ _ _ _ n3,
        lookupField_setParam_ne _ _ _ _ n2, lookupField_setParam_ne _ _ _ _ n1]
  · intro cacheAny up
    rw [workerFetch]
    simp only [hm, if_false, hroute, happ, hapi, horig, perIP,
      eq_self_iff_true, if_true, hallow, Bool.not_true, Bool.false_eq_true]
    split
    · rfl
    · split
      · rfl
      · cases up <;> rfl

theorem c6_witness :
    (workerFetch APP_CONFIG
      { method := "GET", url := "u1", pathname := "/myblog/weather",
        query := [("q", "London")], originHeader := some "http://localhost:5500",
        refererHeader := none, ipHeader := some "1.2.3.4", bodyJson := .ok [] }
      [] [("u1", { status := 200,
                   headers := [("Content-Type", "application/json")],
                   body := .text "CACHED" })] [] 0 false .timeout).response.body =
      ({ status := 200, headers := [("Content-Type", "application/json")],
         body := .text "CACHED" } : WorkerResponse).body
    ∧ (workerFetch APP_CONFIG
      { method := "GET", url := "u1", pathname := "/myblog/weather",
        query := [("q", "London")], originHeader := some "http://localhost:5500",
        refererHeader := none, ipHeader := some "1.2.3.4", bodyJson := .ok [] }
      [] [("u1", { status := 200,
                   headers := [("Content-Type", "application/json")],
                   body := .text "CACHED" })] [] 0 false .timeout).outbound = none
    ∧ lookupField (workerFetch APP_CONFIG
      { method := "GET", url := "u1", pathname := "/myblog/weather",
        query := [("q", "London")], originHeader := some "http://localhost:5500",
        refererHeader := none, ipHeader := some "1.2.3.4", bodyJson := .ok [] }
      [] [("u1", { status := 200,
                   headers := [("Content-Type", "application/json")],
                   body := .text "CACHED" })] [] 0 false .timeout).response.headers
        "Content-Type" =
      lookupField ({ status := 200,
                     headers := [("Content-Type", "application/json")],
                     body := .text "CACHED" } : WorkerResponse).headers
        "Content-Type" := by
  obtain ⟨h1, h2, h3, h4, h5, h6, h7⟩ := c6_cache_hit_frame APP_CONFIG
    { method := "GET", url := "u1", pathname := "/myblog/weather",
      query := [("q", "London")], originHeader := some "http://localhost:5500",
      refererHeader := none, ipHeader := some "1.2.3.4", bodyJson := .ok [] }
    [] [("u1", { status := 200,
                 headers := [("Content-Type", "application/json")],
                 body := .text "CACHED" })] [] 0 false
    "myblog" "weather" []
    { origins := ["http://localhost:5500"],
      apis := [("weather",
                 { urlBase := "https://api.weatherapi.com/v1/current.json",
                   urlQuery := [], secret := "MYBLOG_WEATHER_KEY",
                   method := "GET", params := some ["q"],
                   bodyFields := none, cache := 300 }),
               ("analytics",
                 { urlBase := "https://api.example.com/track",
                   urlQuery := [], secret := "MYBLOG_ANALYTICS_KEY",
                   method := "POST", params := none,
                   bodyFields := some ["event", "data"], cache := 0 })] }
    { urlBase := "https://api.weatherapi.com/v1/current.json",
      urlQuery := [], secret := "MYBLOG_WEATHER_KEY",
      method := "GET", params := some ["q"],
      bodyFields := none, cache := 300 }
    { status := 200, headers := [("Content-Type", "application/json")],
      body := .text "CACHED" }
    (by decide) (by decide) (by decide) (by decide) (by decide) (by decide)
    (by decide) (by decide)
  exact ⟨h3 .timeout, h4 .timeout, h6 "Content-Type" (by decide) .timeout⟩

/-! ## C8: Access-Control-Allow-Origin on error responses -/

theorem lookupField_mem (l : List (String × α)) (k : String) (v : α)
    (h : lookupField l k = some v) : (k, v) ∈ l := by
  induction l with
  | nil => simp [lookupField] at h
  | cons hd tl ih =>
      obtain ⟨a, b⟩ := hd
      by_cases hak : a = k
      · subst hak
        simp [lookupField] at h
        simp [h]
      · simp [lookupField, hak] at h
        exact List.mem_cons_of_mem _ (ih h)

/-- Shape analysis of the worker's response: it is the empty-bodied
preflight, a cached body, an upstream text body, a non-429 JSON error
carrying `Access-Control-Allow-Origin: *`, or the 429 response echoing a
non-empty Origin header (`*` otherwise). -/
theorem workerFetch_acao_shapes (cfg : List (String × AppConfig))
    (req : WorkerRequest) (env : List (String × String))
    (cache : List (String × WorkerResponse)) (rl : RateLimitStore)
    (now : Nat) (b : Bool) (up : UpstreamOutcome) :
    ((workerFetch cfg req env cache rl now b up).response.body = .empty)
    ∨ (∃ stored, (req.url, stored) ∈ cache ∧
        (workerFetch cfg req env cache rl now b up).response.body = stored.body)
    ∨ (∃ bd, (workerFetch cfg req env cache rl now b up).response.body = .text bd)
    ∨ ((workerFetch cfg req env cache rl now b up).response.status ≠ 429 ∧
        lookupField (workerFetch cfg req env cache rl now b up).response.headers
          "Access-Control-Allow-Origin" = some "*")
    ∨ ((workerFetch cfg req env cache rl now b up).response.status = 429 ∧
        lookupField (workerFetch cfg req env cache rl now b up).response.headers
          "Access-Control-Allow-Origin" =
          some (if req.originHeader.getD "" = "" then "*"
                else req.originHeader.getD "")) := by
  by_cases hm : req.method = "OPTIONS"
  · left
    simp [workerFetch, hm, handleCORS]
  · rw [workerFetch]
    simp only [hm, if_false, perIP, eq_self_iff_true, if_true]
    split
    · split
      · refine Or.inr (Or.inr (Or.inr (Or.inl ⟨by simp [jsonResponse], ?_⟩)))
        simp [jsonResponse, lookupField]
      · split
        · refine Or.inr (Or.inr (Or.inr (Or.inl ⟨by simp [jsonResponse], ?_⟩)))
          simp [jsonResponse, lookupField]
        · split
          · refine Or.inr (Or.inr (Or.inr (Or.inl ⟨by simp [jsonResponse], ?_⟩)))
            simp [jsonResponse, lookupField]
          · split
            · refine Or.inr (Or.inr (Or.inr (Or.inr ⟨rfl, ?_⟩)))
              simp [lookupField]
            · split
              · rename_i cachedResponse heq
                have hlk : lookupField cache req.url = some cachedResponse := by
                  rcases ite_eq_iff.mp heq with ⟨-, h⟩ | ⟨-, h⟩
                  · exact h
                  · simp at h
                refine Or.inr (Or.inl ⟨cachedResponse,
                  lookupField_mem cache req.url cachedResponse hlk, ?_⟩)
                simp [addCORSHeaders]
              · split
                · refine Or.inr (Or.inr (Or.inr (Or.inl ⟨by simp [jsonResponse], ?_⟩)))
                  simp [jsonResponse, lookupField]
                · split
                  · refine Or.inr (Or.inr (Or.inr (Or.inl ⟨by simp [jsonResponse], ?_⟩)))
                    simp [jsonResponse, lookupField]
                  · refine Or.inr (Or.inr (Or.inr (Or.inl ⟨by simp [jsonResponse], ?_⟩)))
                    simp [jsonResponse, lookupField]
                  · rename_i st ct bd
                    refine Or.inr (Or.inr (Or.inl ⟨bd, ?_⟩))
                    simp [addCORSHeaders]
    · refine Or.inr (Or.inr (Or.inr (Or.inl ⟨by simp [jsonResponse], ?_⟩)))
      simp [jsonResponse, lookupField]

/-- C8 (amended): every JSON error response carries an
`Access-Control-Allow-Origin` header, but its value is `*` on every
error path except the 429 rate-limit response, which echoes a non-empty
Origin header (`*` otherwise); the post-validation 500/502/504 errors
use `*`, not the validated origin.  (The cache is assumed to hold only
upstream text bodies, as the worker itself stores.) -/
theorem c8_error_acao (cfg : List (String × AppConfig)) (req : WorkerRequest)
    (env : List (String × String)) (cache : List (String × WorkerResponse))
    (rl : RateLimitStore) (now : Nat) (b : Bool) (up : UpstreamOutcome)
    (fields : List (String × JVal))
    (hcache : ∀ p ∈ cache, ∀ fs, p.2.body ≠ ResBody.json fs)
    (hjson : (workerFetch cfg req env cache rl now b up).response.body = .json fields) :
    lookupField (workerFetch cfg req env cache rl now b up).response.headers
      "Access-Control-Allow-Origin" =
      some (if (workerFetch cfg req env cache rl now b up).response.status = 429 then
              (if req.originHeader.getD "" = "" then "*" else req.originHeader.getD "")
            else "*") := by
  rcases workerFetch_acao_shapes cfg req env cache rl now b up with
    h | ⟨stored, hmem, hbody⟩ | ⟨bd, hbody⟩ | ⟨hst, hl⟩ | ⟨hst, hl⟩
  · rw [h] at hjson
    exact absurd hjson (by simp)
  · rw [hbody] at hjson
    exact absurd hjson (hcache _ hmem fields)
  · rw [hbody] at hjson
    exact absurd hjson (by simp)
  · rw [hl, if_neg hst]
  · rw [hl, if_pos hst]

/-- C8 counterexample: a request whose origin passes validation and
whose upstream call times out gets a 504 whose
`Access-Control-Allow-Origin` is `*`, not the validated origin — the
claim that post-validation errors echo the validated origin is false. -/
theorem c8_counterexample :
    isAllowedOrigin ["http://localhost:5500"]
      ((some "http://localhost:5500" : Option String).getD "")
      ((none : Option String).getD "") = true
    ∧ (workerFetch APP_CONFIG
        { method := "GET", url := "u1", pathname := "/myblog/weather",
          query := [("q", "London")], originHeader := some "http://localhost:5500",
          refererHeader := none, ipHeader := some "1.2.3.4", bodyJson := .ok [] }
        [("MYBLOG_WEATHER_KEY", "sek")] [] [] 0 false .timeout).response.status = 504
    ∧ lookupField (workerFetch APP_CONFIG
        { method := "GET", url := "u1", pathname := "/myblog/weather",
          query := [("q", "London")], originHeader := some "http://localhost:5500",
          refererHeader := none, ipHeader := some "1.2.3.4", bodyJson := .ok [] }
        [("MYBLOG_WEATHER_KEY", "sek")] [] [] 0 false .timeout).response.headers
        "Access-Control-Allow-Origin" = some "*"
    ∧ ("*" : String) ≠ "http://localhost:5500" := by decide

theorem c8_witness :
    lookupField (workerFetch APP_CONFIG
      { method := "GET", url := "u1", pathname := "/myblog/weather",
        query := [("q", "London")], originHeader := some "http://localhost:5500",
        refererHeader := none, ipHeader := some "1.2.3.4", bodyJson := .ok [] }
      [("MYBLOG_WEATHER_KEY", "sek")] [] [] 0 false .timeout).response.headers
      "Access-Control-Allow-Origin" =
      some (if (workerFetch APP_CONFIG
          { method := "GET", url := "u1", pathname := "/myblog/weather",
            query := [("q", "London")], originHeader := some "http://localhost:5500",
            refererHeader := none, ipHeader := some "1.2.3.4", bodyJson := .ok [] }
          [("MYBLOG_WEATHER_KEY", "sek")] [] [] 0 false .timeout).response.status = 429 then
            (if (some "http://localhost:5500" : Option String).getD "" = "" then "*"
             else (some "http://localhost:5500" : Option String).getD "")
          else "*") :=
  c8_error_acao APP_CONFIG
    { method := "GET", url := "u1", pathname := "/myblog/weather",
      query := [("q", "London")], originHeader := some "http://localhost:5500",
      refererHeader := none, ipHeader := some "1.2.3.4", bodyJson := .ok [] }
    [("MYBLOG_WEATHER_KEY", "sek")] [] [] 0 false .timeout
    [("error", .str "Gateway Timeout"),
     ("message", .str "External API took too long to respond")]
    (by intro p hp fs; simp at hp) (by decide)

end StatEnv
